import Mathlib

/-!
Verification of bitjira-lifter against its design specification.

Each Python module relevant to the verified claims is given a shallow
embedding: pure functions become Lean functions, module-level mutable
state becomes explicit state records, and the external world (file
system, standard input, subprocesses, HTTP endpoints, the ML pipeline)
becomes an explicit environment record of response functions.  Fallible
Python code (code that may raise) is embedded as `Except String`
computations whose `.error` case is the raised exception's message.
-/

/-- Python truthiness of an optional string: `None` and `""` are falsy. -/
def pyTruthy : Option String → Bool
  | some s => !(s == "")
  | none => false

/-- Python string slicing `s[:n]` (by code points, as Python does). -/
def strTake (s : String) (n : Nat) : String :=
  (s.toList.take n).asString

/-- One fuel-indexed step list for Python's `str.replace`: replaces
non-overlapping occurrences of `pat` left to right.  The fuel (the
input length) only makes the recursion structural; each step consumes
at least one character, so it never runs out. -/
def replGo (pat rep : List Char) : Nat → List Char → List Char
  | 0, l => l
  | fuel + 1, l =>
    match l with
    | [] => []
    | c :: rest =>
      if pat ≠ [] && pat.isPrefixOf l then
        rep ++ replGo pat rep fuel (l.drop pat.length)
      else c :: replGo pat rep fuel rest

/-- Python `s.replace(pat, rep)`.  (The call sites in this repository
always pass a non-empty `pat` — a generation prompt beginning with
fixed literal text — so the empty-pattern corner of Python's semantics
is irrelevant and `pat = ""` is mapped to the identity.) -/
def pyReplace (s pat rep : String) : String :=
  (replGo pat.toList rep.toList s.toList.length s.toList).asString

/-- Python's `str.isspace` characters in the ASCII range (the strings
stripped here are model output; non-ASCII Unicode whitespace is outside
the modelled space). -/
def isPySpace (c : Char) : Bool :=
  c == ' ' || c == '\t' || c == '\n' || c == '\r' ||
    c == Char.ofNat 11 || c == Char.ofNat 12

/-- Python `s.strip()`: remove leading and trailing whitespace. -/
def pyStrip (s : String) : String :=
  (((s.toList.dropWhile isPySpace).reverse.dropWhile isPySpace).reverse).asString

/-- Python `s.startswith(p)`. -/
def pyStartsWith (s p : String) : Bool :=
  p.toList.isPrefixOf s.toList

namespace FieldResolver

/-!
Embedding of `src/utils/field_resolver.py`.

A YAML field-configuration entry `{source: ..., value: ...}` is a
`FieldCfg`; a missing key is `none`.  (The YAML-`null` value, which
Python's `dict.get` can distinguish from a missing key, is outside the
modelled space; no claim involves it.)  The default configuration is an
association list `String × Option FieldCfg` in YAML document order,
where `none` stands for an entry whose value is not a mapping (the code
skips those with a warning).  The per-ticket override file's content is
an association list `String × FieldCfg`; an absent override file loads
as the empty list (`load_yaml` returns `{}` for a missing file).
-/

structure FieldCfg where
  source : Option String
  value : Option String
deriving DecidableEq

/-- `overrides.get(field, {})`: the override entry for a field, or an
empty mapping. -/
def lookupCfg (overrides : List (String × FieldCfg)) (field : String) : FieldCfg :=
  (overrides.lookup field).getD ⟨none, none⟩

/-- Environment of the resolver: responses of standard input per field
(`none` = `KeyboardInterrupt`/`EOFError`), and the text-generation
adapter's ticket-summary function.

Modelled from the spec: the `ai` branch delegates to
`ai.generator.generate_summary`, which is imported by the resolver but
is not defined in `src/ai/generator.py` (the test suite monkeypatches it
in); per the spec it "delegates to the text-generation adapter with a
ticket-summary prompt", so it is an opaque environment function here. -/
structure ResolverEnv where
  stdin : String → Option String
  aiSummary : String → String

/-- The body of the per-field loop in `resolve_fields` (lines 70-98 of
`field_resolver.py`): pick the effective source
(`field_overrides.get("source", cfg.get("source", "default"))`) and
dispatch on it.  The interrupted-input case is already absorbed into
the `stdin` environment (`none` ↦ `""`), matching the inner
`try/except (KeyboardInterrupt, EOFError)`. -/
def resolveField (env : ResolverEnv) (ticket field : String)
    (cfg fovr : FieldCfg) : String :=
  let src := fovr.source.getD (cfg.source.getD "default")
  if src == "ai" then env.aiSummary ticket
  else if src == "ticket_id" then ticket
  else if src == "manual" then
    -- `value = field_overrides.get("value"); if not value: value = input(...)`
    if pyTruthy fovr.value then fovr.value.getD ""
    else (env.stdin field).getD ""
  else if src == "default" then cfg.value.getD ""
  else if src == "custom" then fovr.value.getD ""
  else ""  -- unknown source: logged warning, empty string

/-- `resolve_fields(ticket)`, with the two loaded YAML documents made
explicit parameters.  The loop builds `fields` in iteration order,
skipping default entries whose configuration is not a mapping. -/
def resolve_fields (env : ResolverEnv)
    (defaults : List (String × Option FieldCfg))
    (overrides : List (String × FieldCfg)) (ticket : String) :
    List (String × String) :=
  defaults.filterMap fun e =>
    match e.2 with
    | none => none
    | some cfg => some (e.1, resolveField env ticket e.1 cfg (lookupCfg overrides e.1))

end FieldResolver

namespace FieldResolver

/-- Default configuration of the spec's concrete scenario:
`{jira_ticket: {source: ticket_id}, summary: {source: default, value: "x"}}`. -/
def scenarioDefaults : List (String × Option FieldCfg) :=
  [("jira_ticket", some ⟨some "ticket_id", none⟩),
   ("summary", some ⟨some "default", some "x"⟩)]

/-- Override file of the spec's concrete scenario for `TEST-1`:
`{summary: {source: custom, value: "overridden"}}`. -/
def scenarioOverrides : List (String × FieldCfg) :=
  [("summary", ⟨some "custom", some "overridden"⟩)]

/-- A concrete resolver environment for witnesses: standard input always
answers `"typed"`, the generation adapter echoes the ticket. -/
def envA : ResolverEnv := ⟨fun _ => some "typed", fun t => String.append "AI-" t⟩

/-- Every field declared (with a mapping configuration) in the defaults
is resolved using only its own override entry. -/
theorem mem_resolve_fields (env : ResolverEnv) (ticket : String)
    (defaults : List (String × Option FieldCfg))
    (overrides : List (String × FieldCfg)) (f : String) (cfg : FieldCfg)
    (h : (f, some cfg) ∈ defaults) :
    (f, resolveField env ticket f cfg (lookupCfg overrides f)) ∈
      resolve_fields env defaults overrides ticket := by
  rw [resolve_fields, List.mem_filterMap]
  exact ⟨(f, some cfg), h, rfl⟩

/-- Output keys always come from the default configuration. -/
theorem resolve_fields_keys_subset (env : ResolverEnv) (ticket : String)
    (defaults : List (String × Option FieldCfg))
    (overrides : List (String × FieldCfg)) (f v : String)
    (h : (f, v) ∈ resolve_fields env defaults overrides ticket) :
    f ∈ defaults.map Prod.fst := by
  rw [resolve_fields, List.mem_filterMap] at h
  obtain ⟨⟨g, cfg?⟩, hmem, heq⟩ := h
  cases cfg? with
  | none => simp at heq
  | some cfg =>
    simp only [Option.some.injEq, Prod.mk.injEq] at heq
    exact List.mem_map.mpr ⟨(g, some cfg), hmem, heq.1⟩

end FieldResolver

namespace FieldResolver

/-- With every default entry a mapping, the output keys are exactly the
declared default keys, in order (for any overrides). -/
theorem resolve_fields_keys (env : ResolverEnv) (ticket : String)
    (overrides : List (String × FieldCfg)) :
    ∀ defaults : List (String × Option FieldCfg),
      (∀ e ∈ defaults, e.2.isSome = true) →
      (resolve_fields env defaults overrides ticket).map Prod.fst =
        defaults.map Prod.fst
  | [], _ => rfl
  | (f, cfg?) :: l, h => by
    have h1 := h (f, cfg?) (List.mem_cons_self _ _)
    match cfg?, h1 with
    | some cfg, _ =>
      have ih := resolve_fields_keys env ticket overrides l
        (fun e he => h e (List.mem_cons_of_mem _ he))
      simp only [resolve_fields, List.filterMap_cons, List.map_cons]
      rw [← resolve_fields, ih]

/-- C4: For every ticket with an override file, any field present in the
override supersedes the default configuration's source and value for
that field only (each field is resolved against its own override entry
alone), while fields absent from the override keep the default
behavior; in particular, with defaults
`{jira_ticket: {source: ticket_id}, summary: {source: default, value: "x"}}`
and an override for TEST-1 of `{summary: {source: custom, value: "overridden"}}`,
`resolve_fields("TEST-1")` equals `{jira_ticket: "TEST-1", summary: "overridden"}`. -/
theorem claim_C4 :
    (∀ env ticket defaults overrides (f : String) (cfg : FieldCfg),
        (f, some cfg) ∈ defaults →
        (f, resolveField env ticket f cfg (lookupCfg overrides f)) ∈
          resolve_fields env defaults overrides ticket) ∧
    (∀ (overrides : List (String × FieldCfg)) (f : String),
        overrides.lookup f = none →
        ∀ env ticket cfg,
          resolveField env ticket f cfg (lookupCfg overrides f) =
            resolveField env ticket f cfg (lookupCfg [] f)) ∧
    (∀ env, resolve_fields env scenarioDefaults scenarioOverrides "TEST-1" =
        [("jira_ticket", "TEST-1"), ("summary", "overridden")]) := by
  refine ⟨mem_resolve_fields, ?_, ?_⟩
  · intro overrides f h env ticket cfg
    simp [lookupCfg, h]
  · intro env
    rfl

/-- C4 witness: the general part instantiated at the concrete scenario. -/
theorem claim_C4_witness :
    ("summary",
        resolveField envA "TEST-1" "summary" ⟨some "default", some "x"⟩
          (lookupCfg scenarioOverrides "summary")) ∈
      resolve_fields envA scenarioDefaults scenarioOverrides "TEST-1" ∧
    resolve_fields envA scenarioDefaults scenarioOverrides "TEST-1" =
      [("jira_ticket", "TEST-1"), ("summary", "overridden")] :=
  ⟨claim_C4.1 envA "TEST-1" scenarioDefaults scenarioOverrides "summary"
      ⟨some "default", some "x"⟩ (by decide),
   claim_C4.2.2 envA⟩

end FieldResolver

namespace FieldResolver

/-- C5: For every ticket string with no override file, `resolve_fields`
returns a mapping whose key set is exactly the set of fields declared in
the default configuration (fields not declared in defaults never appear,
even if an override mentions them), and every field whose effective
source is `ticket_id` maps to the input ticket string. -/
theorem claim_C5 :
    (∀ env ticket (defaults : List (String × Option FieldCfg)),
        (∀ e ∈ defaults, e.2.isSome = true) →
        (resolve_fields env defaults [] ticket).map Prod.fst =
          defaults.map Prod.fst) ∧
    (∀ env ticket (defaults : List (String × Option FieldCfg))
        (f : String) (cfg : FieldCfg),
        (f, some cfg) ∈ defaults →
        cfg.source.getD "default" = "ticket_id" →
        (f, ticket) ∈ resolve_fields env defaults [] ticket) ∧
    (∀ env ticket (defaults : List (String × Option FieldCfg)) overrides
        (f v : String),
        (f, v) ∈ resolve_fields env defaults overrides ticket →
        f ∈ defaults.map Prod.fst) := by
  refine ⟨fun env ticket defaults h => resolve_fields_keys env ticket [] defaults h,
    ?_, fun env ticket defaults overrides f v h =>
      resolve_fields_keys_subset env ticket defaults overrides f v h⟩
  intro env ticket defaults f cfg hmem hsrc
  have h := mem_resolve_fields env ticket defaults [] f cfg hmem
  have hv : resolveField env ticket f cfg (lookupCfg [] f) = ticket := by
    simp [resolveField, lookupCfg, hsrc]
  rwa [hv] at h

/-- C5 witness: instantiated at the scenario defaults with no override
file and ticket `TEST-9999`. -/
theorem claim_C5_witness :
    (resolve_fields envA scenarioDefaults [] "TEST-9999").map Prod.fst =
      scenarioDefaults.map Prod.fst ∧
    ("jira_ticket", "TEST-9999") ∈ resolve_fields envA scenarioDefaults [] "TEST-9999" ∧
    "jira_ticket" ∈ scenarioDefaults.map Prod.fst :=
  ⟨claim_C5.1 envA "TEST-9999" scenarioDefaults (by decide),
   claim_C5.2.1 envA "TEST-9999" scenarioDefaults "jira_ticket"
      ⟨some "ticket_id", none⟩ (by decide) (by decide),
   claim_C5.2.2 envA "TEST-9999" scenarioDefaults [] "jira_ticket" "TEST-9999"
      (claim_C5.2.1 envA "TEST-9999" scenarioDefaults "jira_ticket"
        ⟨some "ticket_id", none⟩ (by decide) (by decide))⟩

/-- Default configuration exercising the `manual` source. -/
def manualDefaults : List (String × Option FieldCfg) :=
  [("note", some ⟨some "manual", none⟩)]

/-- Override file whose `value` key is present but holds the empty
string. -/
def manualEmptyOverrides : List (String × FieldCfg) :=
  [("note", ⟨none, some ""⟩)]

/-- C6 counterexample: the override's `value` for the `manual` field
`note` is present (the empty string), yet `resolve_fields` prompts on
standard input and returns the typed answer instead of that literal
value — the code tests Python truthiness, not presence. -/
theorem claim_C6_counterexample :
    resolve_fields envA manualDefaults manualEmptyOverrides "TEST-1" =
      [("note", "typed")] ∧
    (lookupCfg manualEmptyOverrides "note").value = some "" ∧
    ¬ ("typed" = "") := by
  refine ⟨rfl, rfl, by decide⟩

/-- C6 (amended): for every field whose effective source is `manual`,
`resolve_fields` uses the override's literal value when that value is
present and non-empty; otherwise (value absent or empty) it prompts on
standard input, and if that input is interrupted the field resolves to
the empty string instead of propagating the interruption. -/
theorem claim_C6 (env : ResolverEnv) (ticket f : String) (cfg fovr : FieldCfg)
    (hsrc : fovr.source.getD (cfg.source.getD "default") = "manual") :
    (pyTruthy fovr.value = true →
        resolveField env ticket f cfg fovr = fovr.value.getD "") ∧
    (pyTruthy fovr.value = false →
        resolveField env ticket f cfg fovr = (env.stdin f).getD "") ∧
    (pyTruthy fovr.value = false → env.stdin f = none →
        resolveField env ticket f cfg fovr = "") := by
  refine ⟨fun h => ?_, fun h => ?_, fun h hint => ?_⟩ <;>
    simp [resolveField, hsrc, h]
  rw [hint]
  rfl

/-- C6 witness: a `manual` field with a non-empty override value takes
that value; with no value it takes the standard-input answer; an
interrupted input yields the empty string. -/
theorem claim_C6_witness :
    resolveField envA "T-1" "note" ⟨some "manual", none⟩ ⟨none, some "lit"⟩ = "lit" ∧
    resolveField envA "T-1" "note" ⟨some "manual", none⟩ ⟨none, none⟩ = "typed" ∧
    resolveField ⟨fun _ => none, fun _ => ""⟩ "T-1" "note" ⟨some "manual", none⟩
      ⟨none, none⟩ = "" :=
  ⟨(claim_C6 envA "T-1" "note" ⟨some "manual", none⟩ ⟨none, some "lit"⟩ rfl).1 (by decide),
   (claim_C6 envA "T-1" "note" ⟨some "manual", none⟩ ⟨none, none⟩ rfl).2.1 (by decide),
   (claim_C6 ⟨fun _ => none, fun _ => ""⟩ "T-1" "note" ⟨some "manual", none⟩
      ⟨none, none⟩ rfl).2.2 (by decide) rfl⟩

end FieldResolver

namespace FieldResolver

/-- C7: For every field whose effective source string is not one of the
five recognized values (`ai`, `ticket_id`, `manual`, `default`,
`custom`), `resolve_fields` maps that field to the empty string and
continues resolving all subsequent fields — an unknown source never
aborts resolution of the rest of the map. -/
theorem claim_C7 (env : ResolverEnv) (ticket : String)
    (pre post : List (String × Option FieldCfg))
    (overrides : List (String × FieldCfg)) (f : String) (cfg : FieldCfg)
    (hsrc : (lookupCfg overrides f).source.getD (cfg.source.getD "default") ∉
        (["ai", "ticket_id", "manual", "default", "custom"] : List String)) :
    resolve_fields env (pre ++ (f, some cfg) :: post) overrides ticket =
      resolve_fields env pre overrides ticket ++
        (f, "") :: resolve_fields env post overrides ticket := by
  simp only [List.mem_cons, List.not_mem_nil, or_false, not_or] at hsrc
  obtain ⟨h1, h2, h3, h4, h5⟩ := hsrc
  have hval : resolveField env ticket f cfg (lookupCfg overrides f) = "" := by
    simp [resolveField, h1, h2, h3, h4, h5]
  simp only [resolve_fields, List.filterMap_append, List.filterMap_cons]
  rw [hval]

/-- C7 witness: a field with source `wibble` resolves to the empty
string while the fields before and after it are still resolved. -/
theorem claim_C7_witness :
    resolve_fields envA
        ([("a", some ⟨some "ticket_id", none⟩)] ++
          ("b", some ⟨some "wibble", none⟩) ::
            [("c", some ⟨some "default", some "v"⟩)]) [] "T-1" =
      resolve_fields envA [("a", some ⟨some "ticket_id", none⟩)] [] "T-1" ++
        ("b", "") ::
          resolve_fields envA [("c", some ⟨some "default", some "v"⟩)] [] "T-1" :=
  claim_C7 envA "T-1" _ _ [] "b" ⟨some "wibble", none⟩ (by decide)

end FieldResolver

namespace Gen

/-!
Embedding of `src/ai/generator.py` (the text-generation adapter that
`cli.py` imports).  Module-level globals `MODEL_LOADED` and `GENERATOR`
form the state; the environment fixes `os.getenv("MODEL_ID")`, whether
`AutoTokenizer/AutoModelForCausalLM.from_pretrained` succeed, what the
transformers pipeline returns for a prompt (or the message of the
exception it raises), and the file system for PR templates.  The
sampling parameters `do_sample`/`top_p`/`temperature` are forwarded to
the pipeline unchanged and never inspected, so only `max_new_tokens`
(the one parameter the call sites vary) is kept.
-/

structure GenEnv where
  modelIdEnv : Option String
  loadOk : Bool
  pipelineOut : String → Nat → Except String String
  readFile : String → Except String String

structure GenState where
  modelLoaded : Bool
  generatorReady : Bool
deriving DecidableEq

/-- Fresh module state: `MODEL_LOADED = False`, `GENERATOR = None`. -/
def initState : GenState := ⟨false, false⟩

/-- `prepare_model(model_id=None)`: returns early if already loaded,
raises `ValueError` when neither the argument nor `MODEL_ID` is a
non-empty string, otherwise sets `MODEL_LOADED` to the load outcome
(load errors are caught and leave `MODEL_LOADED = False`). -/
def prepare_model (env : GenEnv) (modelIdArg : Option String) (s : GenState) :
    Except String GenState :=
  if s.modelLoaded then .ok s
  else
    let mid := if pyTruthy modelIdArg then modelIdArg else env.modelIdEnv
    if !(pyTruthy mid) then .error "MODEL_ID environment variable is not set"
    else if env.loadOk then .ok { s with modelLoaded := true }
    else .ok { s with modelLoaded := false }

/-- `prepare_generator()`: builds the pipeline once the model is
loaded.  Propagates `prepare_model`'s exception. -/
def prepare_generator (env : GenEnv) (s : GenState) : Except String GenState :=
  if s.generatorReady then .ok s
  else do
    let s' ← prepare_model env none s
    if !s'.modelLoaded then pure s'
    else pure { s' with generatorReady := true }

/-- `generate(prompt, ...)`: placeholder when the model is not loaded,
otherwise the pipeline output with the prompt removed and stripped;
pipeline exceptions degrade to an error-placeholder string.  The
`ValueError` from `prepare_model` propagates (`.error`). -/
def generate (env : GenEnv) (s : GenState) (prompt : String) (maxNewTokens : Nat) :
    Except String (GenState × String) := do
  let s' ← prepare_generator env s
  if !s'.modelLoaded then
    pure (s', "[AI generation unavailable - placeholder for: " ++ strTake prompt 30 ++ "...]")
  else
    match env.pipelineOut prompt maxNewTokens with
    | .ok txt => pure (s', pyStrip (pyReplace txt prompt ""))
    | .error e => pure (s', "[Error during generation: " ++ strTake e 50 ++ "...]")

/-- The prompt built by `generate_commit_message`: truncated diff, plus
the ticket-reference instruction when a ticket is given (truthy). -/
def commitPrompt (diff : String) (ticket : Option String) : String :=
  let p := "Generate a clear and concise commit message for the following code changes:\n\n"
    ++ strTake diff 5000
  if pyTruthy ticket then
    p ++ "\n\nInclude the reference to Jira ticket " ++ ticket.getD ""
      ++ " in the message."
  else p

/-- `generate_commit_message(diff, ticket=None)`. -/
def generate_commit_message (env : GenEnv) (s : GenState) (diff : String)
    (ticket : Option String) : Except String (GenState × String) :=
  generate env s (commitPrompt diff ticket) 150

/-- The prompt built by `generate_pr_description`: truncated diff plus
the template contents when a template was read and is non-empty. -/
def prPrompt (ticket diff : String) (template : Option String) : String :=
  let p := "Summarize the changes for ticket " ++ ticket ++ ":\n\n" ++ strTake diff 5000
  if pyTruthy template then
    p ++ "\n\nThe description should be in the format of " ++ template.getD ""
  else p

/-- The `try`-block body of `generate_pr_description`: read the
template when a path is given (truthy), then generate. -/
def prBody (env : GenEnv) (s : GenState) (ticket diff : String)
    (template_path : Option String) : Except String (GenState × String) := do
  let template ←
    if pyTruthy template_path then (env.readFile (template_path.getD "")).map some
    else pure (none : Option String)
  generate env s (prPrompt ticket diff template) 150

/-- `generate_pr_description(ticket, diff, template_path=None)`: the
whole body runs under `try/except Exception`, so template-read errors
and the `ValueError` escaping `generate` are both converted into a
`Failed to generate PR description: ...` string.  (Both exception sites
precede any mutation of the module globals, so the state is unchanged
on the exception path.) -/
def generate_pr_description (env : GenEnv) (s : GenState) (ticket diff : String)
    (template_path : Option String) : Except String (GenState × String) :=
  match prBody env s ticket diff template_path with
  | .ok r => .ok r
  | .error e => .ok (s, "Failed to generate PR description: " ++ e)

end Gen

namespace Gen

/-- When `MODEL_ID` resolves to a non-empty string, or the model is
already loaded, or the pipeline was already built, `prepare_generator`
does not raise. -/
theorem prepare_generator_ok (env : GenEnv) (s : GenState)
    (h : (pyTruthy env.modelIdEnv || s.modelLoaded || s.generatorReady) = true) :
    ∃ s', prepare_generator env s = .ok s' := by
  rcases s with ⟨ml, gr⟩
  cases gr with
  | true => exact ⟨⟨ml, true⟩, rfl⟩
  | false =>
    cases ml with
    | true => exact ⟨⟨true, true⟩, rfl⟩
    | false =>
      simp only [Bool.or_false] at h
      cases hl : env.loadOk with
      | true =>
        refine ⟨⟨true, true⟩, ?_⟩
        simp_all [prepare_generator, prepare_model, pyTruthy, Bind.bind, Except.bind]
        rfl
      | false =>
        refine ⟨⟨false, false⟩, ?_⟩
        simp_all [prepare_generator, prepare_model, pyTruthy, Bind.bind, Except.bind]
        rfl

/-- Under the same condition, `generate` returns a string in every
case (placeholder, pipeline output, or pipeline-error placeholder). -/
theorem generate_total (env : GenEnv) (s : GenState) (prompt : String) (n : Nat)
    (h : (pyTruthy env.modelIdEnv || s.modelLoaded || s.generatorReady) = true) :
    ∃ s' out, generate env s prompt n = .ok (s', out) := by
  obtain ⟨s', hs'⟩ := prepare_generator_ok env s h
  rw [generate, hs']
  cases hml : s'.modelLoaded with
  | false =>
    exact ⟨s', "[AI generation unavailable - placeholder for: " ++ strTake prompt 30 ++ "...]",
      by simp [hml, Bind.bind, Except.bind]; rfl⟩
  | true =>
    cases hp : env.pipelineOut prompt n with
    | ok txt =>
      exact ⟨s', pyStrip (pyReplace txt prompt ""),
        by simp [hml, hp, Bind.bind, Except.bind]; rfl⟩
    | error e =>
      exact ⟨s', "[Error during generation: " ++ strTake e 50 ++ "...]",
        by simp [hml, hp, Bind.bind, Except.bind]; rfl⟩

end Gen

namespace Gen

/-- An environment with `MODEL_ID` unset: the in-process model can never
be prepared. -/
def envNoId : GenEnv := ⟨none, false, fun _ _ => .ok "", fun _ => .ok ""⟩

/-- An environment with `MODEL_ID` set but the model failing to load. -/
def envLoadFail : GenEnv := ⟨some "gpt2", false, fun _ _ => .ok "", fun _ => .ok ""⟩

/-- C1 counterexample: with `MODEL_ID` unset (and the model not yet
loaded), `generate` and `generate_commit_message` do not return a
string — the `ValueError` raised by `prepare_model` escapes to the
caller, contradicting "never raise an exception to their caller ...
including MODEL_ID unset". -/
theorem claim_C1_counterexample :
    generate envNoId initState "hello" 100 =
      .error "MODEL_ID environment variable is not set" ∧
    generate_commit_message envNoId initState "a diff" (some "TEST-1") =
      .error "MODEL_ID environment variable is not set" :=
  ⟨rfl, rfl⟩

/-- C1 (amended): whenever `MODEL_ID` resolves to a non-empty string
(or the model/pipeline is already prepared), `generate` and
`generate_commit_message` return a string and never raise;
`generate_pr_description` returns a string unconditionally (its
`try/except` also absorbs the `MODEL_ID`-unset `ValueError`); and when
the model fails to load, `generate` returns the marked placeholder
containing a prefix of the original prompt.  (As the counterexample
shows, `generate` and `generate_commit_message` do raise `ValueError`
when `MODEL_ID` is unset and the model is not loaded.) -/
theorem claim_C1 :
    (∀ (env : GenEnv) (s : GenState) (prompt : String) (n : Nat),
        (pyTruthy env.modelIdEnv || s.modelLoaded || s.generatorReady) = true →
        ∃ s' out, generate env s prompt n = .ok (s', out)) ∧
    (∀ (env : GenEnv) (s : GenState) (diff : String) (ticket : Option String),
        (pyTruthy env.modelIdEnv || s.modelLoaded || s.generatorReady) = true →
        ∃ s' out, generate_commit_message env s diff ticket = .ok (s', out)) ∧
    (∀ (env : GenEnv) (s : GenState) (ticket diff : String) (tp : Option String),
        ∃ s' out, generate_pr_description env s ticket diff tp = .ok (s', out)) ∧
    (∀ (env : GenEnv) (s : GenState) (prompt : String) (n : Nat),
        pyTruthy env.modelIdEnv = true → env.loadOk = false →
        s.modelLoaded = false →
        (∃ s', generate env s prompt n =
            .ok (s', "[AI generation unavailable - placeholder for: "
              ++ strTake prompt 30 ++ "...]")) ∧
        (strTake prompt 30).toList <+: prompt.toList) := by
  refine ⟨generate_total, fun env s diff ticket h => generate_total env s _ 150 h, ?_, ?_⟩
  · intro env s ticket diff tp
    cases hb : prBody env s ticket diff tp with
    | ok r => exact ⟨r.1, r.2, by simp [generate_pr_description, hb]⟩
    | error e =>
      exact ⟨s, "Failed to generate PR description: " ++ e,
        by simp [generate_pr_description, hb]⟩
  · intro env s prompt n hmid hload hml
    constructor
    · rcases s with ⟨ml, gr⟩
      simp only at hml
      subst hml
      cases gr with
      | true =>
        refine ⟨⟨false, true⟩, ?_⟩
        simp only [generate, prepare_generator, Bind.bind, Except.bind]
        rfl
      | false =>
        refine ⟨⟨false, false⟩, ?_⟩
        simp_all [generate, prepare_generator, prepare_model, pyTruthy,
          Bind.bind, Except.bind]
        rfl
    · exact List.take_prefix 30 prompt.toList

/-- C1 witness: with `MODEL_ID` set but the model failing to load, all
three public operations return, and `generate` returns the placeholder
with the prompt prefix. -/
theorem claim_C1_witness :
    (∃ s' out, generate envLoadFail initState "hello" 100 = .ok (s', out)) ∧
    (∃ s' out, generate_commit_message envLoadFail initState "a diff" (some "T-1") =
        .ok (s', out)) ∧
    (∃ s' out, generate_pr_description envLoadFail initState "T-1" "a diff" none =
        .ok (s', out)) ∧
    ((∃ s', generate envLoadFail initState "hello" 100 =
        .ok (s', "[AI generation unavailable - placeholder for: "
          ++ strTake "hello" 30 ++ "...]")) ∧
      (strTake "hello" 30).toList <+: "hello".toList) :=
  ⟨claim_C1.1 envLoadFail initState "hello" 100 (by decide),
   claim_C1.2.1 envLoadFail initState "a diff" (some "T-1") (by decide),
   claim_C1.2.2.1 envLoadFail initState "T-1" "a diff" none,
   claim_C1.2.2.2 envLoadFail initState "hello" 100 rfl rfl rfl⟩

end Gen

namespace Gen

/-- An environment whose model loads and whose pipeline answers a fixed
commit message that does not mention the ticket. -/
def envEcho : GenEnv :=
  ⟨some "gpt2", true, fun _ _ => .ok "Update the README", fun _ => .ok ""⟩

/-- C2 counterexample: with a loaded model whose output is
`"Update the README"`, `generate_commit_message` with ticket `TEST-1`
returns that output unchanged — it does not begin with `[TEST-1]`.
No code path prepends `[{ticket}]` to the generated message. -/
theorem claim_C2_counterexample :
    generate_commit_message envEcho initState "some diff" (some "TEST-1") =
      .ok (⟨true, true⟩, "Update the README") ∧
    pyStartsWith "Update the README" "[TEST-1]" = false := by
  exact ⟨rfl, by decide⟩

/-- C2 (amended): for every diff and non-empty ticket, the ticket is
referenced only in the prompt — `generate_commit_message` appends an
instruction naming the ticket to the prompt (the ticket text occurs in
the prompt), and the returned message is the model's processed output
verbatim, with no `[{ticket}]` prefix forced onto it. -/
theorem claim_C2 (env : GenEnv) (s : GenState) (diff t : String) (ht : ¬ t = "")
    (hml : s.modelLoaded = true) (hgr : s.generatorReady = true) (txt : String)
    (hp : env.pipelineOut (commitPrompt diff (some t)) 150 = .ok txt) :
    generate_commit_message env s diff (some t) =
      .ok (s, pyStrip (pyReplace txt (commitPrompt diff (some t)) "")) ∧
    t.toList <:+: (commitPrompt diff (some t)).toList := by
  constructor
  · rcases s with ⟨ml, gr⟩
    simp only at hml hgr
    subst hml; subst hgr
    rw [generate_commit_message, generate, prepare_generator]
    simp [hp, Bind.bind, Except.bind]
    rfl
  · refine ⟨("Generate a clear and concise commit message for the following code changes:\n\n"
        ++ strTake diff 5000 ++ "\n\nInclude the reference to Jira ticket ").toList,
      " in the message.".toList, ?_⟩
    have hpt : pyTruthy (some t) = true := by
      simp [pyTruthy, ht]
    rw [commitPrompt]
    simp only [hpt, if_true, Option.getD_some]
    simp [String.toList, String.data_append]

/-- C2 witness: the amended claim at the echo environment with a
prepared model. -/
theorem claim_C2_witness :
    generate_commit_message envEcho ⟨true, true⟩ "some diff" (some "TEST-1") =
      .ok (⟨true, true⟩,
        pyStrip (pyReplace "Update the README"
          (commitPrompt "some diff" (some "TEST-1")) "")) ∧
    "TEST-1".toList <:+: (commitPrompt "some diff" (some "TEST-1")).toList :=
  claim_C2 envEcho ⟨true, true⟩ "some diff" "TEST-1" (by decide) rfl rfl
    "Update the README" rfl

end Gen

namespace Client

/-!
Embedding of the `ModelClient` path of `src/ai/client.py`.  The client
object carries `_server_available : Option Bool` (`None` = not yet
probed); the module-level generation globals have the same shape as in
`generator.py` and the private `_generate_with_model` has the same body
as `generator.generate`.  The HTTP environment fixes the outcome of
`GET /health` (`none` = `requests.RequestException`, otherwise the
status code) and of `POST /generate` (`.error` = a `RequestException`,
which covers connection errors, timeouts, `raise_for_status` on non-2xx
responses and malformed-JSON decode errors, all of which derive from
`RequestException`; `.ok` carries the optional `"text"` field of the
JSON body).  Every returned triple's last component records whether the
call issued any HTTP request to the server (health probe or generation
request) — the observable the temporal claim is about. -/

structure HttpEnv where
  healthStatus : Option Nat
  remoteGenerate : String → Except Unit (Option String)

structure ClientState where
  serverAvailable : Option Bool
  gen : Gen.GenState
deriving DecidableEq

/-- `ModelClient.check_health()`: one `GET /health` request; caches
`status_code == 200`, or `False` on a request exception. -/
def check_health (he : HttpEnv) (c : ClientState) : ClientState × Bool :=
  match he.healthStatus with
  | some code => ({ c with serverAvailable := some (code == 200) }, code == 200)
  | none => ({ c with serverAvailable := some false }, false)

/-- `ModelClient.is_server_available()`: cached value if present,
otherwise a health probe.  The extra boolean records whether a request
was issued. -/
def is_server_available (he : HttpEnv) (c : ClientState) :
    ClientState × Bool × Bool :=
  match c.serverAvailable with
  | none => let (c', a) := check_health he c; (c', a, true)
  | some a => (c, a, false)

/-- `_generate_with_model` of `client.py` — textually the same body as
`generator.generate` (the module duplicates it), acting on the client
module's own generation globals. -/
def _generate_with_model (ge : Gen.GenEnv) (s : Gen.GenState) (prompt : String)
    (maxNewTokens : Nat) : Except String (Gen.GenState × String) :=
  Gen.generate ge s prompt maxNewTokens

/-- `ModelClient.generate(prompt, ...)`: consult the (cached) server
availability; if unavailable, generate directly in process; otherwise
`POST /generate`, falling back to direct generation (and latching
`_server_available = False`) on a request exception.  Result: new
state, returned string, and whether any HTTP request was issued. -/
def generate (he : HttpEnv) (ge : Gen.GenEnv) (c : ClientState) (prompt : String)
    (maxNewTokens : Nat) : Except String (ClientState × String × Bool) :=
  let (c₁, avail, probed) := is_server_available he c
  if !avail then
    match _generate_with_model ge c₁.gen prompt maxNewTokens with
    | .ok (g', t) => .ok ({ c₁ with gen := g' }, t, probed)
    | .error e => .error e
  else
    match he.remoteGenerate prompt with
    | .ok text? => .ok (c₁, text?.getD "", true)
    | .error _ =>
      match _generate_with_model ge c₁.gen prompt maxNewTokens with
      | .ok (g', t) => .ok ({ serverAvailable := some false, gen := g' }, t, true)
      | .error e => .error e

end Client

namespace Client

/-- A responsive remote environment: health 200, generation answered. -/
def heAlive : HttpEnv := ⟨some 200, fun _ => .ok (some "remote text")⟩

/-- C3 counterexample: with the cached availability flag already
`False` and `MODEL_ID` unset, `generate` raises (`ValueError` from
`prepare_model` escapes through the direct-generation fallback) even
though the remote endpoint would have answered — so "returns a
non-empty string ... rather than raising" fails as stated. -/
theorem claim_C3_counterexample :
    generate heAlive Gen.envNoId ⟨some false, ⟨false, false⟩⟩ "p" 100 =
      .error "MODEL_ID environment variable is not set" := rfl

/-- C3 (amended): once the cached availability flag of a `ModelClient`
is `False`, a `generate` call on that instance issues no HTTP request
to the remote endpoint (neither probe nor generation), and behaves
exactly as direct in-process generation; when `MODEL_ID` resolves to a
non-empty string (or the model/pipeline is already prepared) it returns
a string without raising.  (As the counterexample shows, with
`MODEL_ID` unset and no model loaded the escaping `ValueError` breaks
the unconditional "never raises" reading; the returned string is the
direct generation output, which the code does not guarantee non-empty.) -/
theorem claim_C3 (he : HttpEnv) (ge : Gen.GenEnv) (g : Gen.GenState)
    (prompt : String) (n : Nat) :
    (∀ r, generate he ge ⟨some false, g⟩ prompt n = .ok r → r.2.2 = false) ∧
    (generate he ge ⟨some false, g⟩ prompt n =
      match _generate_with_model ge g prompt n with
      | .ok (g', t) => .ok (⟨some false, g'⟩, t, false)
      | .error e => .error e) ∧
    ((pyTruthy ge.modelIdEnv || g.modelLoaded || g.generatorReady) = true →
      ∃ c' out, generate he ge ⟨some false, g⟩ prompt n = .ok (c', out, false)) := by
  have hdir : generate he ge ⟨some false, g⟩ prompt n =
      match _generate_with_model ge g prompt n with
      | .ok (g', t) => .ok (⟨some false, g'⟩, t, false)
      | .error e => .error e := by
    rw [generate, is_server_available]
    rfl
  refine ⟨?_, hdir, ?_⟩
  · intro r hr
    rw [hdir] at hr
    cases hg : _generate_with_model ge g prompt n with
    | ok p =>
      rw [hg] at hr
      cases hr
      rfl
    | error e =>
      rw [hg] at hr
      cases hr
  · intro h
    obtain ⟨g', out, hok⟩ := Gen.generate_total ge g prompt n h
    exact ⟨⟨some false, g'⟩, out, by rw [hdir, _generate_with_model, hok]⟩

/-- C3 witness: with the flag latched `False`, a live remote endpoint
and a loadable-environment-less model (`MODEL_ID` set, load fails), the
call returns a string and issues no request. -/
theorem claim_C3_witness :
    ∃ c' out,
      generate heAlive Gen.envLoadFail ⟨some false, ⟨false, false⟩⟩ "p" 100 =
        .ok (c', out, false) :=
  (claim_C3 heAlive Gen.envLoadFail ⟨false, false⟩ "p" 100).2.2 (by decide)

end Client

namespace GitUtils

/-!
Embedding of `src/git/git_utils.py`.  A subprocess execution
environment maps a command line to either a completed process (exit
code, captured stdout/stderr) or — `.error msg` — a non
`CalledProcessError` exception such as a missing binary.
-/

structure CmdResult where
  exitCode : Nat
  stdout : String
  stderr : String

/-- The subprocess environment: what `subprocess.run` does for a given
command line. -/
def ExecEnv : Type := List String → Except String CmdResult

/-- The repository's run_cmd helper (renamed `runCmd` here; the
original name collides with a Lean keyword): stdout (stripped) on
exit code 0; `GitError` with the joined command line and stripped
stderr on a non-zero exit (`CalledProcessError` via `check=True`);
`GitError` with the exception text on any other exception. -/
def runCmd (exec : ExecEnv) (cmd : List String) : Except String String :=
  match exec cmd with
  | .ok r =>
    if r.exitCode == 0 then .ok (pyStrip r.stdout)
    else .error ("Error executing command \x27" ++ " ".intercalate cmd ++ "\x27: "
      ++ pyStrip r.stderr)
  | .error msg =>
    .error ("Unexpected error executing command \x27" ++ " ".intercalate cmd
      ++ "\x27: " ++ msg)

/-- `commit_with_message(message)`: `True` on success, `False` when
`runCmd` raises `GitError`. -/
def commit_with_message (exec : ExecEnv) (message : String) : Bool :=
  match runCmd exec ["git", "commit", "-m", message] with
  | .ok _ => true
  | .error _ => false

/-- `checkout_branch(name, create_new=False)`. -/
def checkout_branch (exec : ExecEnv) (name : String) (create_new : Bool) : Bool :=
  let cmd := if create_new then ["git", "checkout", "-b", name]
    else ["git", "checkout", name]
  match runCmd exec cmd with
  | .ok _ => true
  | .error _ => false

/-- `list_local_branches()`: split `git branch` output into lines, strip
each and remove the leading `"* "` marker characters; empty list when
the command fails. -/
def list_local_branches (exec : ExecEnv) : List String :=
  match runCmd exec ["git", "branch"] with
  | .ok out =>
    (out.split (fun c => c == '\n')).map fun line =>
      ((pyStrip line).toList.dropWhile (fun c => c == '*' || c == ' ')).asString
  | .error _ => []

end GitUtils

namespace GitUtils

/-- An execution environment in which every command succeeds. -/
def execOk : ExecEnv := fun _ => .ok ⟨0, "out\n", ""⟩

/-- An execution environment in which every command exits non-zero. -/
def execFail : ExecEnv := fun _ => .ok ⟨1, "", "fatal: not a git repository\n"⟩

/-- C8: For every message and branch name, `commit_with_message` and
`checkout_branch` return a boolean — `True` exactly when the underlying
command exits zero, `False` otherwise — and never raise (they are
total, `GitError` is caught), while the underlying command runner
converts any non-zero exit into a `GitError` carrying the joined
command line and the captured (stripped) standard error. -/
theorem claim_C8 :
    (∀ (exec : ExecEnv) (message : String),
        commit_with_message exec message = true ↔
          ∃ out, runCmd exec ["git", "commit", "-m", message] = .ok out) ∧
    (∀ (exec : ExecEnv) (name : String) (create_new : Bool),
        checkout_branch exec name create_new = true ↔
          ∃ out, runCmd exec (if create_new then ["git", "checkout", "-b", name]
            else ["git", "checkout", name]) = .ok out) ∧
    (∀ (exec : ExecEnv) (cmd : List String) (r : CmdResult),
        exec cmd = .ok r → ¬ r.exitCode = 0 →
        runCmd exec cmd = .error ("Error executing command \x27"
          ++ " ".intercalate cmd ++ "\x27: " ++ pyStrip r.stderr)) := by
  refine ⟨?_, ?_, ?_⟩
  · intro exec message
    rw [commit_with_message]
    cases h : runCmd exec ["git", "commit", "-m", message] with
    | ok out => simp [h]
    | error e => simp [h]
  · intro exec name create_new
    rw [checkout_branch]
    cases create_new with
    | true =>
      cases h : runCmd exec ["git", "checkout", "-b", name] with
      | ok out => simp [h]
      | error e => simp [h]
    | false =>
      cases h : runCmd exec ["git", "checkout", name] with
      | ok out => simp [h]
      | error e => simp [h]
  · intro exec cmd r hexec hcode
    rw [runCmd, hexec]
    simp [hcode]

/-- C8 witness: a zero-exit environment commits successfully; a
non-zero exit produces the `GitError` message with the command line and
stripped stderr. -/
theorem claim_C8_witness :
    commit_with_message execOk "msg" = true ∧
    runCmd execFail ["git", "commit", "-m", "msg"] =
      .error ("Error executing command \x27git commit -m msg\x27: "
        ++ pyStrip "fatal: not a git repository\n") :=
  ⟨(claim_C8.1 execOk "msg").mpr ⟨"out", rfl⟩,
   claim_C8.2.2 execFail ["git", "commit", "-m", "msg"]
     ⟨1, "", "fatal: not a git repository\n"⟩ rfl (by decide)⟩

end GitUtils

namespace BranchHelper

/-!
Embedding of `src/jira/branch_helper.py`.  `sanitize_branch_name` is a
pure pipeline of four regex/string steps; each step is given a direct
recursive embedding on the character list.
-/

/-- `lo ≤ ord(c) ≤ hi`. -/
def between (lo : Nat) (c : Char) (hi : Nat) : Bool :=
  decide (lo ≤ c.toNat ∧ c.toNat ≤ hi)

/-- A character the sanitized output may contain: lowercase ASCII
letter, digit, or hyphen. -/
def goodChar (c : Char) : Bool :=
  between 97 c 122 || between 48 c 57 || c == '-'

/-- The character class `[a-zA-Z0-9-]` of the first regex: an uppercase
ASCII letter, or a character already in the output class. -/
def allowedChar (c : Char) : Bool :=
  between 65 c 90 || goodChar c

/-- One character of `re.sub(r'[^a-zA-Z0-9-]', '-', name)`. -/
def replChar (c : Char) : Char :=
  if allowedChar c then c else '-'

/-- `re.sub(r'-+', '-', s)`: keep the first hyphen of each run, drop
the rest.  The flag records whether the previous input character was a
hyphen (i.e. we are inside a run whose first hyphen was already kept). -/
def collapseAux : Bool → List Char → List Char
  | _, [] => []
  | prevH, c :: rest =>
    if c = '-' then
      if prevH then collapseAux true rest
      else '-' :: collapseAux true rest
    else c :: collapseAux false rest

/-- Is this character a hyphen? -/
def isH (c : Char) : Bool := c == '-'

/-- Drop a maximal trailing run of hyphens. -/
def dropTrailingHyphens : List Char → List Char
  | [] => []
  | c :: rest =>
    let r := dropTrailingHyphens rest
    if r.isEmpty && isH c then [] else c :: r

/-- `s.strip('-')`: drop leading and trailing hyphen runs. -/
def stripHyphens (l : List Char) : List Char :=
  dropTrailingHyphens (l.dropWhile isH)

/-- Python `str.lower` on one character.  Only the ASCII range matters:
at its call site every character is already in `[a-zA-Z0-9-]`, where
Python's Unicode lowercasing and ASCII lowercasing agree. -/
def pyLowerChar (c : Char) : Char :=
  if between 65 c 90 then Char.ofNat (c.toNat + 32) else c

/-- The whole sanitizing pipeline on a character list. -/
def coreList (l : List Char) : List Char :=
  (stripHyphens (collapseAux false (l.map replChar))).map pyLowerChar

/-- `sanitize_branch_name(name)`: replace disallowed characters by
hyphens, collapse hyphen runs, strip edge hyphens, lowercase. -/
def sanitize_branch_name (name : String) : String :=
  (coreList name.toList).asString

/-- No two adjacent hyphens. -/
def noDouble : List Char → Bool
  | a :: b :: rest => !(isH a && isH b) && noDouble (b :: rest)
  | _ => true

/-- Does not start with a hyphen. -/
def noLeadH : List Char → Bool
  | c :: _ => !(c == '-')
  | [] => true

/-- Does not end with a hyphen. -/
def noTrailH : List Char → Bool
  | [] => true
  | [c] => !(c == '-')
  | _ :: rest => noTrailH rest

end BranchHelper

namespace BranchHelper

/-- `(Char.ofNat n).toNat = n` below the surrogate range. -/
theorem toNat_ofNat_lt (n : Nat) (h : n < 55296) : (Char.ofNat n).toNat = n := by
  unfold Char.ofNat
  rw [dif_pos (Or.inl h)]
  rfl

/-- Replacement characters are always in `[a-zA-Z0-9-]`. -/
theorem allowedChar_replChar (c : Char) : allowedChar (replChar c) = true := by
  rw [replChar]
  cases h : allowedChar c with
  | true => simp [h]
  | false => simp [h]; decide

/-- Collapsing preserves a character predicate that holds of `'-'`. -/
theorem all_collapseAux (p : Char → Bool) (hp : p '-' = true) :
    ∀ (b : Bool) (l : List Char), l.all p = true → (collapseAux b l).all p = true
  | _, [], _ => rfl
  | b, c :: rest, h => by
    rw [List.all_cons, Bool.and_eq_true] at h
    rw [collapseAux]
    by_cases hc : c = '-'
    · rw [if_pos hc]
      cases b with
      | true => exact all_collapseAux p hp true rest h.2
      | false =>
        simp only [Bool.false_eq_true, if_false, List.all_cons, Bool.and_eq_true]
        exact ⟨hp, all_collapseAux p hp true rest h.2⟩
    · rw [if_neg hc, List.all_cons, Bool.and_eq_true]
      exact ⟨h.1, all_collapseAux p hp false rest h.2⟩

/-- Consing onto a non-double list stays non-double if the new head and
the old head are not both hyphens. -/
theorem noDouble_cons (a : Char) (l : List Char) (h : noDouble l = true)
    (hh : noLeadH l = true ∨ ¬ a = '-') : noDouble (a :: l) = true := by
  cases l with
  | nil => rfl
  | cons b rest =>
    rw [noDouble, Bool.and_eq_true]
    refine ⟨?_, h⟩
    rcases hh with hh | hh
    · rw [noLeadH] at hh
      simp only [isH, Bool.not_eq_true']
      cases hb : b == '-' with
      | true => rw [hb] at hh; simp at hh
      | false => simp [hb]
    · simp [isH, hh]

/-- The tail of a non-double list is non-double. -/
theorem noDouble_tail (a : Char) (l : List Char) (h : noDouble (a :: l) = true) :
    noDouble l = true := by
  cases l with
  | nil => rfl
  | cons b rest =>
    rw [noDouble, Bool.and_eq_true] at h
    exact h.2

/-- After a hyphen, a non-double list continues with a non-hyphen. -/
theorem noDouble_head (l : List Char) (h : noDouble ('-' :: l) = true) :
    noLeadH l = true := by
  cases l with
  | nil => rfl
  | cons b rest =>
    rw [noDouble, Bool.and_eq_true] at h
    have h1 := h.1
    rw [isH, isH] at h1
    simp only [Bool.not_eq_true'] at h1
    rw [noLeadH]
    simp only [Bool.not_eq_true']
    simpa using h1

/-- A list with nothing appended in front keeps `noDouble`. -/
theorem noDouble_append_right (s t : List Char) (h : noDouble (s ++ t) = true) :
    noDouble t = true := by
  induction s with
  | nil => exact h
  | cons a s ih => exact ih (noDouble_tail a (s ++ t) h)

/-- Collapsing produces a non-double list; with the in-run flag set the
result also does not start with a hyphen. -/
theorem collapse_noDouble :
    ∀ l : List Char, noDouble (collapseAux false l) = true ∧
      noDouble (collapseAux true l) = true ∧ noLeadH (collapseAux true l) = true
  | [] => ⟨rfl, rfl, rfl⟩
  | c :: rest => by
    obtain ⟨ihf, iht, ihh⟩ := collapse_noDouble rest
    by_cases hc : c = '-'
    · subst hc
      refine ⟨?_, ?_, ?_⟩
      · rw [collapseAux, if_pos rfl]
        simp only [Bool.false_eq_true, if_false]
        exact noDouble_cons '-' (collapseAux true rest) iht (Or.inl ihh)
      · rw [collapseAux, if_pos rfl]
        simpa using iht
      · rw [collapseAux, if_pos rfl]
        simpa using ihh
    · refine ⟨?_, ?_, ?_⟩
      · rw [collapseAux, if_neg hc]
        exact noDouble_cons c (collapseAux false rest) ihf (Or.inr hc)
      · rw [collapseAux, if_neg hc]
        exact noDouble_cons c (collapseAux false rest) ihf (Or.inr hc)
      · rw [collapseAux, if_neg hc, noLeadH]
        simp [hc]

end BranchHelper

namespace BranchHelper

/-- After dropping the leading hyphens the list does not start with one. -/
theorem noLeadH_dropWhile : ∀ l : List Char, noLeadH (l.dropWhile isH) = true
  | [] => rfl
  | c :: rest => by
    rw [List.dropWhile_cons]
    cases hc : isH c with
    | true => simpa using noLeadH_dropWhile rest
    | false =>
      rw [isH] at hc
      simp only [Bool.false_eq_true, if_false]
      rw [noLeadH, hc]
      rfl

/-- `dropWhile` preserves `List.all`. -/
theorem all_dropWhile (p q : Char → Bool) :
    ∀ l : List Char, l.all p = true → (l.dropWhile q).all p = true
  | [], _ => rfl
  | c :: rest, h => by
    rw [List.all_cons, Bool.and_eq_true] at h
    rw [List.dropWhile_cons]
    cases hq : q c with
    | true => simpa using all_dropWhile p q rest h.2
    | false =>
      simp only [Bool.false_eq_true, if_false, List.all_cons, Bool.and_eq_true]
      exact ⟨h.1, h.2⟩

/-- `dropWhile` preserves `noDouble` (its result is a suffix). -/
theorem noDouble_dropWhile (q : Char → Bool) (l : List Char)
    (h : noDouble l = true) : noDouble (l.dropWhile q) = true := by
  obtain ⟨s, hs⟩ := List.dropWhile_suffix q (l := l)
  exact noDouble_append_right s _ (by rw [hs]; exact h)

/-- When `dropTrailingHyphens` returns a non-empty list it keeps the
original head. -/
theorem dropTrailing_head (c : Char) (rest : List Char) :
    dropTrailingHyphens (c :: rest) = [] ∨
      dropTrailingHyphens (c :: rest) = c :: dropTrailingHyphens rest := by
  rw [dropTrailingHyphens]
  by_cases h : ((dropTrailingHyphens rest).isEmpty && isH c) = true
  · rw [if_pos h]; exact Or.inl rfl
  · rw [if_neg h]; exact Or.inr rfl

/-- `dropTrailingHyphens` preserves `noLeadH`. -/
theorem noLeadH_dropTrailing : ∀ l : List Char, noLeadH l = true →
    noLeadH (dropTrailingHyphens l) = true
  | [], _ => rfl
  | c :: rest, h => by
    rcases dropTrailing_head c rest with heq | heq
    · rw [heq]; rfl
    · rw [heq]
      rw [noLeadH] at h ⊢
      exact h

/-- `dropTrailingHyphens` preserves `List.all`. -/
theorem all_dropTrailing (p : Char → Bool) :
    ∀ l : List Char, l.all p = true → (dropTrailingHyphens l).all p = true
  | [], _ => rfl
  | c :: rest, h => by
    rw [List.all_cons, Bool.and_eq_true] at h
    rcases dropTrailing_head c rest with heq | heq
    · rw [heq]; rfl
    · rw [heq, List.all_cons, Bool.and_eq_true]
      exact ⟨h.1, all_dropTrailing p rest h.2⟩

/-- `dropTrailingHyphens` preserves `noDouble`. -/
theorem noDouble_dropTrailing : ∀ l : List Char, noDouble l = true →
    noDouble (dropTrailingHyphens l) = true
  | [], _ => rfl
  | c :: rest, h => by
    rcases dropTrailing_head c rest with heq | heq
    · rw [heq]; rfl
    · rw [heq]
      refine noDouble_cons c _ (noDouble_dropTrailing rest (noDouble_tail c rest h)) ?_
      by_cases hc : c = '-'
      · subst hc
        exact Or.inl (noLeadH_dropTrailing rest (noDouble_head rest h))
      · exact Or.inr hc

/-- `dropTrailingHyphens` output never ends with a hyphen. -/
theorem noTrailH_dropTrailing : ∀ l : List Char,
    noTrailH (dropTrailingHyphens l) = true
  | [] => rfl
  | c :: rest => by
    rw [dropTrailingHyphens]
    by_cases h : ((dropTrailingHyphens rest).isEmpty && isH c) = true
    · rw [if_pos h]; rfl
    · rw [if_neg h]
      cases hr : dropTrailingHyphens rest with
      | nil =>
        rw [hr, Bool.and_eq_true] at h
        have hc : isH c = false := by
          cases hic : isH c with
          | true => exact absurd ⟨rfl, hic⟩ h
          | false => rfl
        rw [isH] at hc
        rw [noTrailH, hc]
        rfl
      | cons x xs =>
        have := noTrailH_dropTrailing rest
        rw [hr] at this
        exact this

end BranchHelper

namespace BranchHelper

/-- Lowercasing an uppercase ASCII letter adds 32 to its code point. -/
theorem pyLowerChar_upper (c : Char) (h : between 65 c 90 = true) :
    (pyLowerChar c).toNat = c.toNat + 32 := by
  rw [pyLowerChar, if_pos h]
  rw [between, decide_eq_true_eq] at h
  exact toNat_ofNat_lt _ (by omega)

/-- Lowercasing any other character is the identity. -/
theorem pyLowerChar_id (c : Char) (h : between 65 c 90 = false) :
    pyLowerChar c = c := by
  rw [pyLowerChar, h]
  rfl

/-- Lowercasing maps hyphens (and only hyphens) to hyphens. -/
theorem pyLowerChar_hyphen (c : Char) : (pyLowerChar c == '-') = (c == '-') := by
  cases hu : between 65 c 90 with
  | false => rw [pyLowerChar_id c hu]
  | true =>
    have ht := pyLowerChar_upper c hu
    rw [between, decide_eq_true_eq] at hu
    have h1 : (pyLowerChar c == '-') = false := by
      rw [beq_eq_false_iff_ne]
      intro hEq
      have h2 := congrArg Char.toNat hEq
      rw [ht, show ('-' : Char).toNat = 45 from rfl] at h2
      omega
    have h2 : (c == '-') = false := by
      rw [beq_eq_false_iff_ne]
      intro hEq
      have h3 := congrArg Char.toNat hEq
      rw [show ('-' : Char).toNat = 45 from rfl] at h3
      omega
    rw [h1, h2]

/-- Lowercasing a `[a-zA-Z0-9-]` character lands in `[a-z0-9-]`. -/
theorem goodChar_pyLowerChar (c : Char) (h : allowedChar c = true) :
    goodChar (pyLowerChar c) = true := by
  cases hu : between 65 c 90 with
  | true =>
    have ht := pyLowerChar_upper c hu
    rw [between, decide_eq_true_eq] at hu
    have hlow : between 97 (pyLowerChar c) 122 = true := by
      rw [between, decide_eq_true_eq]
      omega
    rw [goodChar, hlow]
    rfl
  | false =>
    rw [pyLowerChar_id c hu]
    rw [allowedChar, hu] at h
    simpa using h

/-- A `[a-z0-9-]` character is in `[a-zA-Z0-9-]`. -/
theorem allowedChar_of_good (c : Char) (h : goodChar c = true) :
    allowedChar c = true := by
  rw [allowedChar, h, Bool.or_true]

/-- A `[a-z0-9-]` character is not uppercase. -/
theorem not_upper_of_good (c : Char) (h : goodChar c = true) :
    between 65 c 90 = false := by
  rw [goodChar, Bool.or_eq_true, Bool.or_eq_true] at h
  rw [between, decide_eq_false_iff_not]
  rintro ⟨h1, h2⟩
  rcases h with (h | h) | h
  · rw [between, decide_eq_true_eq] at h
    omega
  · rw [between, decide_eq_true_eq] at h
    omega
  · rw [beq_iff_eq] at h
    have h3 := congrArg Char.toNat h
    rw [show ('-' : Char).toNat = 45 from rfl] at h3
    omega

/-- Lowercasing fixes output-class characters. -/
theorem pyLowerChar_id_of_good (c : Char) (h : goodChar c = true) :
    pyLowerChar c = c :=
  pyLowerChar_id c (not_upper_of_good c h)

/-- Replacement fixes output-class characters. -/
theorem replChar_id_of_good (c : Char) (h : goodChar c = true) :
    replChar c = c := by
  rw [replChar, if_pos (allowedChar_of_good c h)]

end BranchHelper

namespace BranchHelper

/-- Lowercasing preserves "does not start with a hyphen". -/
theorem noLeadH_map_pyLower (l : List Char) (h : noLeadH l = true) :
    noLeadH (l.map pyLowerChar) = true := by
  cases l with
  | nil => rfl
  | cons c rest =>
    rw [List.map_cons, noLeadH, pyLowerChar_hyphen]
    rw [noLeadH] at h
    exact h

/-- Lowercasing preserves "does not end with a hyphen". -/
theorem noTrailH_map_pyLower : ∀ l : List Char, noTrailH l = true →
    noTrailH (l.map pyLowerChar) = true
  | [], _ => rfl
  | [c], h => by
    rw [List.map_cons, List.map_nil, noTrailH, pyLowerChar_hyphen]
    rw [noTrailH] at h
    exact h
  | _ :: b :: rest, h => noTrailH_map_pyLower (b :: rest) h

/-- Lowercasing preserves "no two adjacent hyphens". -/
theorem noDouble_map_pyLower : ∀ l : List Char, noDouble l = true →
    noDouble (l.map pyLowerChar) = true
  | [], _ => rfl
  | [_], _ => rfl
  | a :: b :: rest, h => by
    rw [noDouble, Bool.and_eq_true] at h
    have ih := noDouble_map_pyLower (b :: rest) h.2
    rw [List.map_cons, List.map_cons, noDouble, Bool.and_eq_true]
    constructor
    · have h1 := h.1
      rw [isH, isH] at h1 ⊢
      rw [pyLowerChar_hyphen, pyLowerChar_hyphen]
      exact h1
    · rw [List.map_cons] at ih
      exact ih

/-- On a non-double list, collapapsing is the identity (and likewise
with the in-run flag set when the list does not start with a hyphen). -/
theorem collapse_id : ∀ l : List Char, noDouble l = true →
    collapseAux false l = l ∧ (noLeadH l = true → collapseAux true l = l)
  | [], _ => ⟨rfl, fun _ => rfl⟩
  | c :: rest, h => by
    by_cases hc : c = '-'
    · subst hc
      have hlead := noDouble_head rest h
      have ih := collapse_id rest (noDouble_tail _ rest h)
      constructor
      · rw [collapseAux, if_pos rfl]
        simp only [Bool.false_eq_true, if_false]
        rw [ih.2 hlead]
      · intro hl
        rw [noLeadH] at hl
        simp at hl
    · have ih := collapse_id rest (noDouble_tail c rest h)
      constructor
      · rw [collapseAux, if_neg hc, ih.1]
      · intro _
        rw [collapseAux, if_neg hc, ih.1]

/-- Dropping leading hyphens from a list that has none is the identity. -/
theorem dropWhile_id_of_noLeadH (l : List Char) (h : noLeadH l = true) :
    l.dropWhile isH = l := by
  cases l with
  | nil => rfl
  | cons c rest =>
    rw [noLeadH, Bool.not_eq_true'] at h
    rw [List.dropWhile_cons, isH, h]
    simp

/-- Dropping trailing hyphens from a list that has none is the identity. -/
theorem dropTrailing_id_of_noTrailH : ∀ l : List Char, noTrailH l = true →
    dropTrailingHyphens l = l
  | [], _ => rfl
  | [c], h => by
    rw [noTrailH, Bool.not_eq_true'] at h
    rw [dropTrailingHyphens]
    simp [dropTrailingHyphens, isH, h]
  | a :: b :: rest, h => by
    have ih := dropTrailing_id_of_noTrailH (b :: rest) h
    rw [dropTrailingHyphens]
    simp [ih]

/-- Lowercasing a list of output-class characters is the identity. -/
theorem map_pyLower_id : ∀ l : List Char, l.all goodChar = true →
    l.map pyLowerChar = l
  | [], _ => rfl
  | c :: rest, h => by
    rw [List.all_cons, Bool.and_eq_true] at h
    rw [List.map_cons, pyLowerChar_id_of_good c h.1, map_pyLower_id rest h.2]

/-- Replacing over a list of output-class characters is the identity. -/
theorem map_repl_id : ∀ l : List Char, l.all goodChar = true →
    l.map replChar = l
  | [], _ => rfl
  | c :: rest, h => by
    rw [List.all_cons, Bool.and_eq_true] at h
    rw [List.map_cons, replChar_id_of_good c h.1, map_repl_id rest h.2]

end BranchHelper

namespace BranchHelper

/-- The sanitizing pipeline always produces a list of output-class
characters with no double, leading or trailing hyphen. -/
theorem coreList_spec (l : List Char) :
    (coreList l).all goodChar = true ∧ noDouble (coreList l) = true ∧
    noLeadH (coreList l) = true ∧ noTrailH (coreList l) = true := by
  have hallr : (l.map replChar).all allowedChar = true := by
    rw [List.all_eq_true]
    intro x hx
    obtain ⟨y, -, rfl⟩ := List.mem_map.mp hx
    exact allowedChar_replChar y
  have hallk := all_collapseAux allowedChar (by decide) false (l.map replChar) hallr
  have halld := all_dropWhile allowedChar isH _ hallk
  have hallt := all_dropTrailing allowedChar _ halld
  have hndk := (collapse_noDouble (l.map replChar)).1
  have hndd := noDouble_dropWhile isH _ hndk
  have hndt := noDouble_dropTrailing _ hndd
  have hld := noLeadH_dropWhile (collapseAux false (l.map replChar))
  have hlt := noLeadH_dropTrailing _ hld
  have htt := noTrailH_dropTrailing
    ((collapseAux false (l.map replChar)).dropWhile isH)
  refine ⟨?_, noDouble_map_pyLower _ hndt, noLeadH_map_pyLower _ hlt,
    noTrailH_map_pyLower _ htt⟩
  rw [coreList, List.all_eq_true]
  intro x hx
  obtain ⟨y, hy, rfl⟩ := List.mem_map.mp hx
  rw [stripHyphens] at hy
  exact goodChar_pyLowerChar y (List.all_eq_true.mp hallt y hy)

/-- The sanitizing pipeline fixes lists that already satisfy its output
invariants. -/
theorem coreList_id (X : List Char) (h1 : X.all goodChar = true)
    (h2 : noDouble X = true) (h3 : noLeadH X = true) (h4 : noTrailH X = true) :
    coreList X = X := by
  rw [coreList, map_repl_id X h1, (collapse_id X h2).1, stripHyphens,
    dropWhile_id_of_noLeadH X h3, dropTrailing_id_of_noTrailH X h4,
    map_pyLower_id X h1]

/-- C10: For every input string, the output of `sanitize_branch_name`
contains only lowercase ASCII letters, digits and single hyphens, with
no leading, trailing or consecutive hyphens, and `sanitize_branch_name`
is idempotent: applying it to its own output returns the output
unchanged. -/
theorem claim_C10 (s : String) :
    (sanitize_branch_name s).toList.all goodChar = true ∧
    noDouble (sanitize_branch_name s).toList = true ∧
    noLeadH (sanitize_branch_name s).toList = true ∧
    noTrailH (sanitize_branch_name s).toList = true ∧
    sanitize_branch_name (sanitize_branch_name s) = sanitize_branch_name s := by
  have hspec := coreList_spec s.toList
  have htl : (sanitize_branch_name s).toList = coreList s.toList := rfl
  refine ⟨htl ▸ hspec.1, htl ▸ hspec.2.1, htl ▸ hspec.2.2.1, htl ▸ hspec.2.2.2, ?_⟩
  rw [sanitize_branch_name, sanitize_branch_name]
  have hx : ((coreList s.toList).asString).toList = coreList s.toList := rfl
  rw [hx, coreList_id _ hspec.1 hspec.2.1 hspec.2.2.1 hspec.2.2.2]

end BranchHelper

namespace BranchHelper

/-- Python's `needle in hay` on character lists. -/
def infixOf (needle : List Char) : List Char → Bool
  | [] => needle.isEmpty
  | c :: rest => needle.isPrefixOf (c :: rest) || infixOf needle rest

/-- Python `str.lower` (ASCII range; `find_branches` compares branch
and ticket names, which are ASCII at every call site). -/
def pyLower (s : String) : String := (s.toList.map pyLowerChar).asString

/-- `ticket.lower() in branch.lower()`. -/
def strContains (hay needle : String) : Bool := infixOf needle.toList hay.toList

/-- Python `str.isascii()`. -/
def isAsciiStr (s : String) : Bool := s.toList.all fun c => decide (c.toNat < 128)

/-- `find_branches(ticket=None)`: all local branches, filtered
case-insensitively by the ticket when one is given (truthy).  The
branch list is the result of `git_utils.list_local_branches()`. -/
def find_branches (branches : List String) (ticket : Option String) : List String :=
  if pyTruthy ticket then
    branches.filter fun b => strContains (pyLower b) (pyLower (ticket.getD ""))
  else branches

/-- Environment of `create_branch`: the local branch list, the outcome
of building the Jira client and fetching `issue.fields.summary`
(`.error` = the raised exception's text, `.ok ""` = missing summary),
the translator's answer (`none` = exception or falsy result), and
whether `checkout_branch(name, create_new=True)` succeeds. -/
structure JiraEnv where
  localBranches : List String
  issueSummary : Except String String
  translate : String → Option String
  checkoutOk : String → Bool

/-- The summary actually used for naming: `'no-summary'` when empty,
then translated when non-ASCII (keeping the original on a translation
failure or falsy translation). -/
def effective_summary (env : JiraEnv) (raw : String) : String :=
  let s := if raw == "" then "no-summary" else raw
  if isAsciiStr s then s
  else match env.translate s with
    | some t => if t == "" then s else t
    | none => s

/-- The `except` branch of the inner `try`: fall back to the
ticket-id-only branch name; raise `JiraError` if even that checkout
fails. -/
def fallback_branch (env : JiraEnv) (ticket branch_type : String) (e : String) :
    Except String String :=
  let name := branch_type ++ "/" ++ ticket
  if env.checkoutOk name then .ok name
  else .error ("Failed to create branch for ticket " ++ ticket ++ ": " ++ e)

/-- `create_branch(ticket, branch_type="feature")`: reuse an existing
branch if one matches the ticket (its checkout result is ignored);
otherwise derive the name from the Jira summary — sanitized and capped
at 50 characters — and create it; any exception in the Jira block,
including the `JiraError` raised when creating the derived branch
fails, lands in the fallback.  (The malformed-ticket regex check only
logs a warning and does not alter the result; the outer `try` re-raises
unchanged.) -/
def create_branch (env : JiraEnv) (ticket : String) (branch_type : String) :
    Except String String :=
  match find_branches env.localBranches (some ticket) with
  | b :: _ => .ok b
  | [] =>
    match env.issueSummary with
    | .ok raw =>
      let name := branch_type ++ "/" ++ ticket ++ "-"
        ++ strTake (sanitize_branch_name (effective_summary env raw)) 50
      if env.checkoutOk name then .ok name
      else fallback_branch env ticket branch_type ("Failed to create branch: " ++ name)
    | .error e => fallback_branch env ticket branch_type e

end BranchHelper

namespace BranchHelper

/-- Python slicing caps length. -/
theorem strTake_length_le (s : String) (n : Nat) : (strTake s n).length ≤ n := by
  have h : (strTake s n).length = (s.toList.take n).length := rfl
  rw [h, List.length_take]
  exact Nat.min_le_left n _

/-- C9: For every ticket and branch type, when no branch for the ticket
exists and the issue-tracker summary lookup succeeds (and the checkout
itself succeeds), `create_branch` produces a branch named
`{branch_type}/{ticket}-{sanitized summary}` with the sanitized summary
segment capped at 50 characters; when the summary lookup fails, it
falls back to the ticket-id-only name `{branch_type}/{ticket}`. -/
theorem claim_C9 (env : JiraEnv) (ticket branch_type : String)
    (hnone : find_branches env.localBranches (some ticket) = []) :
    (∀ raw, env.issueSummary = .ok raw →
        env.checkoutOk (branch_type ++ "/" ++ ticket ++ "-"
          ++ strTake (sanitize_branch_name (effective_summary env raw)) 50) = true →
        create_branch env ticket branch_type =
          .ok (branch_type ++ "/" ++ ticket ++ "-"
            ++ strTake (sanitize_branch_name (effective_summary env raw)) 50) ∧
        (strTake (sanitize_branch_name (effective_summary env raw)) 50).length ≤ 50) ∧
    (∀ e, env.issueSummary = .error e →
        env.checkoutOk (branch_type ++ "/" ++ ticket) = true →
        create_branch env ticket branch_type = .ok (branch_type ++ "/" ++ ticket)) := by
  constructor
  · intro raw hsum hchk
    refine ⟨?_, strTake_length_le _ 50⟩
    rw [create_branch, hnone, hsum]
    simp only [if_pos hchk]
  · intro e hsum hchk
    rw [create_branch, hnone, hsum]
    simp only [fallback_branch, if_pos hchk]

/-- A Jira environment whose summary lookup answers and whose checkouts
succeed. -/
def jiraEnvOk : JiraEnv := ⟨[], .ok "Fix Login Bug", fun _ => none, fun _ => true⟩

/-- A Jira environment whose summary lookup raises. -/
def jiraEnvFail : JiraEnv := ⟨[], .error "HTTP 401", fun _ => none, fun _ => true⟩

/-- C9 witness: summary `Fix Login Bug` yields
`feature/ABC-123-fix-login-bug`; a failed lookup yields
`feature/ABC-123`. -/
theorem claim_C9_witness :
    (create_branch jiraEnvOk "ABC-123" "feature" =
        .ok ("feature" ++ "/" ++ "ABC-123" ++ "-"
          ++ strTake (sanitize_branch_name (effective_summary jiraEnvOk "Fix Login Bug")) 50) ∧
      (strTake (sanitize_branch_name (effective_summary jiraEnvOk "Fix Login Bug")) 50).length ≤ 50) ∧
    create_branch jiraEnvFail "ABC-123" "feature" = .ok ("feature" ++ "/" ++ "ABC-123") :=
  ⟨(claim_C9 jiraEnvOk "ABC-123" "feature" rfl).1 "Fix Login Bug" rfl (by decide),
   (claim_C9 jiraEnvFail "ABC-123" "feature" rfl).2 "HTTP 401" rfl (by decide)⟩

end BranchHelper
